import Mathlib

/-!
Verification of the pyspec CCD image transformation pipeline
(`pyspec/ccd/transformations.py`): a shallow embedding of the
region-of-interest extraction, dark-frame correction, pixel-to-angle
mapping, per-image and per-set processing, and the cuboid gridding
stage, together with theorems settling the specified properties.

Conventions of the embedding:
- numpy 2-D arrays become `List (List _)`; `np.ravel` in row-major
  (C) order becomes `List.flatten`;
- image intensities and monitor scalars are modelled as rationals
  (`ℚ`); real-valued trigonometry (`np.arctan`, `np.pi`) is modelled
  over `ℝ`;
- numpy elementwise division by a zero scalar does not raise: it
  produces non-finite values (inf/nan) and only emits a runtime
  warning.  A cell value is therefore `Option ℚ`, with `none`
  standing for a non-finite value;
- Python slice bounds in the source are always non-negative in the
  guarded claims (1-based ROI minima), so a slice `l[a:b]` is
  embedded as `(l.drop a).take (b - a)`; the negative-index
  wrap-around of Python slicing is never exercised and not modelled.
-/

/-- A region of interest `[xMin, xWidth, yMin, yHeight]`, 1-based
inclusive origin, as stored in `self.conRoi` (source list
`[roi[0], roi[1], roi[2], roi[3]]`). -/
structure Roi where
  xmin : ℕ
  dx : ℕ
  ymin : ℕ
  dy : ℕ
deriving DecidableEq, Repr

/-- Python slice `l[a:b]` for non-negative bounds: drop `a` elements,
then take `b - a`.  Like Python, out-of-range bounds clamp. -/
def pySlice (l : List α) (a b : ℕ) : List α :=
  (l.drop a).take (b - a)

/-- Embeds `getAreaSet` (transformations.py line 51):
`cut = image[roi[2]-1 : roi[2]+roi[3]-1, roi[0]-1 : roi[0]+roi[1]-1]`. -/
def getAreaSet (image : List (List α)) (roi : Roi) : List (List α) :=
  (pySlice image (roi.ymin - 1) (roi.ymin + roi.dy - 1)).map
    (fun row => pySlice row (roi.xmin - 1) (roi.xmin + roi.dx - 1))

/-- Embeds `np.arange(a, a + n)` over naturals. -/
def arange (a n : ℕ) : List ℕ :=
  (List.range n).map (fun i => a + i)

/-- Embeds `np.meshgrid(xs, ys)` for 1-D inputs: returns `(X, Y)`,
both of shape `(ys.length, xs.length)`, with `X[j][i] = xs[i]` and
`Y[j][i] = ys[j]`. -/
def meshgrid (xs ys : List ℕ) : List (List ℕ) × List (List ℕ) :=
  (ys.map (fun _ => xs), ys.map (fun yj => xs.map (fun _ => yj)))

/-- Embeds `getAreaXY` (transformations.py line 66):
`z = np.array(np.meshgrid(np.arange(roi[0], roi[0]+roi[1]), np.arange(roi[2], roi[2]+roi[3])))`. -/
def getAreaXY (roi : Roi) : List (List ℕ) × List (List ℕ) :=
  meshgrid (arange roi.xmin roi.dx) (arange roi.ymin roi.dy)

/-- The detector-geometry fields of `ImageProcessor` touched by
`__init__` and `setBins`. -/
structure DetConfig where
  detDis : ℚ
  detPixSizeX : ℚ
  detPixSizeY : ℚ
  detSizeX : ℚ
  detSizeY : ℚ
  detX0 : ℚ
  detY0 : ℚ
deriving DecidableEq, Repr

/-- The detector defaults set in `ImageProcessor.__init__`
(transformations.py lines 85-92). -/
def initConfig : DetConfig :=
  { detDis := 300
    detPixSizeX := 0.020
    detPixSizeY := 0.020
    detSizeX := 1300
    detSizeY := 1340
    detX0 := 1300 / 2
    detY0 := 1340 / 2 }

/-- Embeds `ImageProcessor.setBins` (transformations.py lines
105-112), statement by statement.  Note that the source applies both
`binX` and `binY` to `detPixSizeX` and never updates `detPixSizeY`. -/
def setBins (c : DetConfig) (binX binY : ℚ) : DetConfig :=
  let c := { c with detPixSizeX := c.detPixSizeX * binX }
  let c := { c with detPixSizeX := c.detPixSizeX * binY }
  let c := { c with detSizeX := c.detSizeX / binX }
  let c := { c with detSizeY := c.detSizeY / binY }
  let c := { c with detX0 := c.detX0 / binX }
  let c := { c with detY0 := c.detY0 / binY }
  c

/-- C1: the claim states that after `setBins(binX, binY)` the pixel
pitch X is multiplied by `binX` and pitch Y by `binY`.  The code
instead multiplies `detPixSizeX` by `binX` and then by `binY` (line
108 reads `self.detPixSizeX *= binY`) and leaves `detPixSizeY`
unchanged.  At the failing input `setBins(4, 4)` from the default
configuration (both pitches `0.020`), the code yields pitch X
`0.32` and pitch Y `0.020`, while the claim demands `0.080` and
`0.080`; the size/center fields do follow the claim.  This theorem
evaluates the embedded code at that input and exhibits the
divergence on the pitch fields. -/
theorem setBins_code_bug :
    (setBins initConfig 4 4).detPixSizeX = 0.32 ∧
    (setBins initConfig 4 4).detPixSizeY = 0.020 ∧
    ¬ ((setBins initConfig 4 4).detPixSizeX = initConfig.detPixSizeX * 4 ∧
       (setBins initConfig 4 4).detPixSizeY = initConfig.detPixSizeY * 4) ∧
    (setBins initConfig 4 4).detSizeX = initConfig.detSizeX / 4 ∧
    (setBins initConfig 4 4).detSizeY = initConfig.detSizeY / 4 ∧
    (setBins initConfig 4 4).detX0 = initConfig.detX0 / 4 ∧
    (setBins initConfig 4 4).detY0 = initConfig.detY0 / 4 := by
  refine ⟨?_, ?_, ?_, ?_, ?_, ?_, ?_⟩ <;> norm_num [setBins, initConfig]

/-!
### ROI extraction: shape and sub-array facts (shared lemmas)
-/

/-- For a 1-based ROI, the slice bounds of `getAreaSet` reduce to the
sub-array `frame[yMin-1 : yMin-1+yHeight][xMin-1 : xMin-1+xWidth]`. -/
lemma getAreaSet_eq_subarray (image : List (List α)) (roi : Roi)
    (hx : 1 ≤ roi.xmin) (hy : 1 ≤ roi.ymin) :
    getAreaSet image roi =
      ((image.drop (roi.ymin - 1)).take roi.dy).map
        (fun row => (row.drop (roi.xmin - 1)).take roi.dx) := by
  have h1 : roi.ymin + roi.dy - 1 - (roi.ymin - 1) = roi.dy := by omega
  have h2 : roi.xmin + roi.dx - 1 - (roi.xmin - 1) = roi.dx := by omega
  simp [getAreaSet, pySlice, h1, h2]

/-- For an in-bounds 1-based ROI, `getAreaSet` yields `yHeight` rows. -/
lemma getAreaSet_length (image : List (List α)) (roi : Roi)
    (hy : 1 ≤ roi.ymin)
    (hrows : roi.ymin - 1 + roi.dy ≤ image.length) :
    (getAreaSet image roi).length = roi.dy := by
  have h1 : roi.ymin + roi.dy - 1 - (roi.ymin - 1) = roi.dy := by omega
  simp only [getAreaSet, pySlice, List.length_map, List.length_take,
    List.length_drop, h1]
  omega

/-- For an in-bounds 1-based ROI, every row of `getAreaSet` has
`xWidth` entries. -/
lemma getAreaSet_row_length (image : List (List α)) (roi : Roi)
    (hx : 1 ≤ roi.xmin)
    (hcols : ∀ row ∈ image, roi.xmin - 1 + roi.dx ≤ row.length) :
    ∀ row ∈ getAreaSet image roi, row.length = roi.dx := by
  intro row hrow
  simp only [getAreaSet, List.mem_map] at hrow
  obtain ⟨r, hr, rfl⟩ := hrow
  have hrmem : r ∈ image := by
    simp only [pySlice] at hr
    exact List.drop_subset _ _ (List.take_subset _ _ hr)
  have h2 : roi.xmin + roi.dx - 1 - (roi.xmin - 1) = roi.dx := by omega
  simp only [pySlice, List.length_take, List.length_drop, h2]
  have := hcols r hrmem
  omega

/-- C7: for every frame and every 1-based ROI `(xMin, xWidth, yMin,
yHeight)` lying fully inside the frame, `getAreaSet` returns exactly
the sub-array `frame[yMin-1 : yMin-1+yHeight, xMin-1 : xMin-1+xWidth]`,
of shape exactly `(yHeight, xWidth)`. -/
theorem getAreaSet_roi_spec (image : List (List α)) (roi : Roi)
    (hx : 1 ≤ roi.xmin) (hy : 1 ≤ roi.ymin)
    (hrows : roi.ymin - 1 + roi.dy ≤ image.length)
    (hcols : ∀ row ∈ image, roi.xmin - 1 + roi.dx ≤ row.length) :
    getAreaSet image roi =
      ((image.drop (roi.ymin - 1)).take roi.dy).map
        (fun row => (row.drop (roi.xmin - 1)).take roi.dx) ∧
    (getAreaSet image roi).length = roi.dy ∧
    ∀ row ∈ getAreaSet image roi, row.length = roi.dx :=
  ⟨getAreaSet_eq_subarray image roi hx hy,
   getAreaSet_length image roi hy hrows,
   getAreaSet_row_length image roi hx hcols⟩

/-- Witness for C7 at a concrete frame and ROI. -/
theorem getAreaSet_roi_spec_witness :
    getAreaSet ([[1, 2, 3], [4, 5, 6]] : List (List ℕ)) ⟨2, 2, 1, 2⟩ =
      [[2, 3], [5, 6]] ∧
    (getAreaSet ([[1, 2, 3], [4, 5, 6]] : List (List ℕ)) ⟨2, 2, 1, 2⟩).length = 2 ∧
    ∀ row ∈ getAreaSet ([[1, 2, 3], [4, 5, 6]] : List (List ℕ)) ⟨2, 2, 1, 2⟩,
      row.length = 2 :=
  ⟨by decide,
   (getAreaSet_roi_spec ([[1, 2, 3], [4, 5, 6]] : List (List ℕ)) ⟨2, 2, 1, 2⟩
      (by decide) (by decide) (by decide) (by decide)).2⟩

/-!
### Flattening in row-major order (`np.ravel`): index alignment
-/

/-- Reading a flattened list of uniform-length rows at flat position
`j * dx + i` is reading row `j` at column `i`. -/
lemma flatten_getElem?_uniform (L : List (List α)) (dx : ℕ)
    (hL : ∀ l ∈ L, l.length = dx) (j i : ℕ) (hi : i < dx) :
    L.flatten[j * dx + i]? = L[j]?.bind (fun l => l[i]?) := by
  induction L generalizing j with
  | nil => simp
  | cons hd tl ih =>
    have hhd : hd.length = dx := hL hd (List.mem_cons_self hd tl)
    have htl : ∀ l ∈ tl, l.length = dx := fun l hl => hL l (List.mem_cons_of_mem hd hl)
    cases j with
    | zero =>
      simp only [List.flatten_cons, Nat.zero_mul, Nat.zero_add,
        List.getElem?_append, List.getElem?_cons_zero, Option.some_bind]
      rw [if_pos (hhd ▸ hi)]
    | succ j =>
      have harith : (j + 1) * dx + i = hd.length + (j * dx + i) := by
        rw [hhd]; ring
      simp only [List.flatten_cons, harith, List.getElem?_cons_succ]
      rw [List.getElem?_append_right (Nat.le_add_right _ _),
        Nat.add_sub_cancel_left]
      exact ih htl j

/-- Entry `i` of `np.arange(a, a + n)`. -/
lemma arange_getElem? (a n i : ℕ) (h : i < n) :
    (arange a n)[i]? = some (a + i) := by
  simp [arange, List.getElem?_map, List.getElem?_range h]

/-- Length of `np.arange(a, a + n)`. -/
lemma arange_length (a n : ℕ) : (arange a n).length = n := by
  simp [arange]

/-- C8: the coordinate arrays of `getAreaXY` cover
`[xMin, xMin+xWidth) × [yMin, yMin+yHeight)` and, flattened in the
same row-major order as `getAreaSet`, index-align with it: at flat
position `j * xWidth + i` (for `j < yHeight`, `i < xWidth`) the X
array holds `xMin + i`, the Y array holds `yMin + j`, and the
flattened ROI cut holds the frame value at 0-based position
`(yMin - 1 + j, xMin - 1 + i)` — i.e. at detector position
`(xMin + i, yMin + j)` in the 1-based convention. -/
theorem getAreaXY_aligned (image : List (List α)) (roi : Roi) (j i : ℕ)
    (hi : i < roi.dx) (hj : j < roi.dy)
    (hx : 1 ≤ roi.xmin) (hy : 1 ≤ roi.ymin)
    (hrows : roi.ymin - 1 + roi.dy ≤ image.length)
    (hcols : ∀ row ∈ image, roi.xmin - 1 + roi.dx ≤ row.length) :
    (getAreaXY roi).1.flatten[j * roi.dx + i]? = some (roi.xmin + i) ∧
    (getAreaXY roi).2.flatten[j * roi.dx + i]? = some (roi.ymin + j) ∧
    (getAreaSet image roi).flatten[j * roi.dx + i]? =
      image[roi.ymin - 1 + j]?.bind (fun row => row[roi.xmin - 1 + i]?) := by
  refine ⟨?_, ?_, ?_⟩
  · have hL : ∀ l ∈ (getAreaXY roi).1, l.length = roi.dx := by
      intro l hl
      simp only [getAreaXY, meshgrid, List.mem_map] at hl
      obtain ⟨yj, _, rfl⟩ := hl
      exact arange_length _ _
    rw [flatten_getElem?_uniform _ roi.dx hL j i hi]
    simp only [getAreaXY, meshgrid, List.getElem?_map,
      arange_getElem? roi.ymin roi.dy j hj, Option.map_some', Option.some_bind]
    exact arange_getElem? roi.xmin roi.dx i hi
  · have hL : ∀ l ∈ (getAreaXY roi).2, l.length = roi.dx := by
      intro l hl
      simp only [getAreaXY, meshgrid, List.mem_map] at hl
      obtain ⟨yj, _, rfl⟩ := hl
      simp [arange_length]
    rw [flatten_getElem?_uniform _ roi.dx hL j i hi]
    simp only [getAreaXY, meshgrid, List.getElem?_map,
      arange_getElem? roi.ymin roi.dy j hj, Option.map_some', Option.some_bind]
    rw [arange_getElem? roi.xmin roi.dx i hi]
    rfl
  · have hL := getAreaSet_row_length image roi hx hcols
    rw [flatten_getElem?_uniform _ roi.dx hL j i hi,
      getAreaSet_eq_subarray image roi hx hy]
    rw [List.getElem?_map, List.getElem?_take, if_pos hj, List.getElem?_drop]
    cases h : image[roi.ymin - 1 + j]? with
    | none => simp
    | some row =>
      simp only [Option.map_some', Option.some_bind]
      rw [List.getElem?_take, if_pos hi, List.getElem?_drop]

/-- Witness for C8 at a concrete frame, ROI and pixel position. -/
theorem getAreaXY_aligned_witness :
    (getAreaXY ⟨2, 2, 1, 2⟩).1.flatten[1 * 2 + 0]? = some (2 + 0) ∧
    (getAreaXY ⟨2, 2, 1, 2⟩).2.flatten[1 * 2 + 0]? = some (1 + 1) ∧
    (getAreaSet ([[1, 2, 3], [4, 5, 6]] : List (List ℕ)) ⟨2, 2, 1, 2⟩).flatten[1 * 2 + 0]? =
      ([[1, 2, 3], [4, 5, 6]] : List (List ℕ))[1 - 1 + 1]?.bind
        (fun row => row[2 - 1 + 0]?) :=
  getAreaXY_aligned ([[1, 2, 3], [4, 5, 6]] : List (List ℕ)) ⟨2, 2, 1, 2⟩ 1 0
    (by decide) (by decide) (by decide) (by decide) (by decide) (by decide)

/-!
### Frame correction (`_readImage`)
-/

/-- A numpy float cell: `some q` for a finite value, `none` for a
non-finite value (inf/nan). -/
abbrev Val := Option ℚ

/-- numpy division of a finite cell by a monitor scalar.  Division by
a zero scalar does not raise in numpy: it yields a non-finite value
(inf or nan) and only emits a runtime warning. -/
def npDivScalar (x m : ℚ) : Val :=
  if m = 0 then none else some (x / m)

/-- numpy elementwise subtraction; a non-finite operand propagates. -/
def vsub : Val → Val → Val
  | some a, some b => some (a - b)
  | _, _ => none

/-- Elementwise division of a frame by a monitor scalar (`frame / mon`). -/
def scaleFrame (fr : List (List ℚ)) (m : ℚ) : List (List Val) :=
  fr.map (fun row => row.map (fun x => npDivScalar x m))

/-- Elementwise difference of two frames (`a - b`); equal shapes in
every use (numpy would refuse to broadcast mismatched 2-D shapes). -/
def subFrames (a b : List (List Val)) : List (List Val) :=
  List.zipWith (List.zipWith vsub) a b

/-- Embeds `ImageProcessor._readImage` (transformations.py lines
147-171): resolve the ROI default (lines 164-165: when `conRoi` is
unset it becomes the full frame of the data image; `pointVal.headD []`
stands for `pointVal[0]`, which the source would only evaluate on a
nonempty frame), then `conDark = getAreaSet(darkVal, roi) / darkMon`
and `conIm = getAreaSet(pointVal, roi) / pointMon - conDark`
(lines 168-169).  The dark/data frames and their monitors are the
values the source reads from files; reading is external I/O and is
passed in here. -/
def _readImage (darkVal : List (List ℚ)) (darkMon : ℚ)
    (pointVal : List (List ℚ)) (pointMon : ℚ)
    (conRoi : Option Roi) : List (List Val) :=
  let roi := match conRoi with
    | none => ⟨1, (pointVal.headD []).length, 1, pointVal.length⟩
    | some r => r
  let conDark := scaleFrame (getAreaSet darkVal roi) darkMon
  let conIm := subFrames (scaleFrame (getAreaSet pointVal roi) pointMon) conDark
  conIm

/-- Row-level frame correction with nonzero monitors. -/
lemma zipWith_vsub_scale (a b : List ℚ) (dm km : ℚ)
    (hdm : dm ≠ 0) (hkm : km ≠ 0) :
    List.zipWith vsub (a.map (fun x => npDivScalar x dm))
        (b.map (fun x => npDivScalar x km)) =
      List.zipWith (fun d k => some (d / dm - k / km)) a b := by
  induction a generalizing b with
  | nil => simp
  | cons x a ih =>
    cases b with
    | nil => simp
    | cons y b => simp [npDivScalar, hdm, hkm, vsub, ih]

/-- Frame-level correction with nonzero monitors. -/
lemma subFrames_scale (A B : List (List ℚ)) (dm km : ℚ)
    (hdm : dm ≠ 0) (hkm : km ≠ 0) :
    subFrames (scaleFrame A dm) (scaleFrame B km) =
      List.zipWith (List.zipWith (fun d k => some (d / dm - k / km))) A B := by
  induction A generalizing B with
  | nil => simp [subFrames, scaleFrame]
  | cons r A ih =>
    cases B with
    | nil => simp [subFrames, scaleFrame]
    | cons s B =>
      have := ih B
      simp only [subFrames, scaleFrame, List.map_cons, List.zipWith_cons_cons,
        List.cons.injEq] at this ⊢
      exact ⟨zipWith_vsub_scale r s dm km hdm hkm, this⟩

/-- Row-level: subtracting a zero row under unit monitors is the
identity (wrapped in finite cells). -/
lemma zipWith_sub_zero_row (row : List ℚ) (C : ℕ) (h : row.length ≤ C) :
    List.zipWith (fun d k => some (d / (1:ℚ) - k / 1)) row
        (List.replicate C (0:ℚ)) = row.map some := by
  induction row generalizing C with
  | nil => simp
  | cons d row ih =>
    cases C with
    | zero => simp at h
    | succ C =>
      simp only [List.replicate_succ, List.zipWith_cons_cons, List.map_cons,
        List.cons.injEq]
      refine ⟨by norm_num, ih C (by simpa using h)⟩

/-- Frame-level: subtracting a zero frame under unit monitors is the
identity (wrapped in finite cells). -/
lemma zipWith_sub_zero_frame (A : List (List ℚ)) (R C : ℕ)
    (hR : A.length ≤ R) (hC : ∀ row ∈ A, row.length ≤ C) :
    List.zipWith (List.zipWith (fun d k => some (d / (1:ℚ) - k / 1))) A
        (List.replicate R (List.replicate C (0:ℚ))) =
      A.map (fun row => row.map some) := by
  induction A generalizing R with
  | nil => simp
  | cons r A ih =>
    cases R with
    | zero => simp at hR
    | succ R =>
      simp only [List.replicate_succ, List.zipWith_cons_cons, List.map_cons,
        List.cons.injEq]
      refine ⟨zipWith_sub_zero_row r C (hC r (List.mem_cons_self r A)), ?_⟩
      exact ih R (by simpa using hR) (fun row hrow => hC row (List.mem_cons_of_mem r hrow))

/-- Length of a Python slice. -/
lemma pySlice_length (l : List α) (a b : ℕ) :
    (pySlice l a b).length = (b - a) ⊓ (l.length - a) := by
  simp [pySlice]

/-- Slicing a constant frame yields a constant frame. -/
lemma getAreaSet_replicate (n w : ℕ) (roi : Roi) :
    getAreaSet (List.replicate n (List.replicate w (0:ℚ))) roi =
      List.replicate ((roi.ymin + roi.dy - 1 - (roi.ymin - 1)) ⊓ (n - (roi.ymin - 1)))
        (List.replicate ((roi.xmin + roi.dx - 1 - (roi.xmin - 1)) ⊓ (w - (roi.xmin - 1))) 0) := by
  simp [getAreaSet, pySlice, List.drop_replicate, List.take_replicate,
    List.map_replicate]

/-- C6: for every dark frame, data frame, positive monitors and ROI,
frame correction computes
`corrected = extractROI(data,roi)/dataMonitor - extractROI(dark,roi)/darkMonitor`
elementwise (finite cells, no clipping of negative results); and with
an all-zero dark frame of the data frame's shape and both monitors
equal to `1`, the corrected frame is exactly the raw data ROI. -/
theorem readImage_formula (darkVal pointVal : List (List ℚ))
    (darkMon pointMon : ℚ) (roi : Roi) (w : ℕ) :
    (0 < darkMon → 0 < pointMon →
      _readImage darkVal darkMon pointVal pointMon (some roi) =
        List.zipWith
          (List.zipWith (fun d k => some (d / pointMon - k / darkMon)))
          (getAreaSet pointVal roi) (getAreaSet darkVal roi)) ∧
    ((∀ row ∈ pointVal, row.length = w) →
      _readImage (List.replicate pointVal.length (List.replicate w 0)) 1
          pointVal 1 (some roi) =
        (getAreaSet pointVal roi).map (fun row => row.map some)) := by
  constructor
  · intro hdm hpm
    show subFrames (scaleFrame (getAreaSet pointVal roi) pointMon)
        (scaleFrame (getAreaSet darkVal roi) darkMon) = _
    exact subFrames_scale _ _ pointMon darkMon (ne_of_gt hpm) (ne_of_gt hdm)
  · intro hw
    show subFrames (scaleFrame (getAreaSet pointVal roi) 1)
        (scaleFrame (getAreaSet (List.replicate pointVal.length
          (List.replicate w 0)) roi) 1) = _
    rw [subFrames_scale _ _ 1 1 one_ne_zero one_ne_zero,
      getAreaSet_replicate]
    apply zipWith_sub_zero_frame
    · simp [getAreaSet, pySlice_length]
    · intro row hrow
      simp only [getAreaSet, List.mem_map] at hrow
      obtain ⟨r, hr, rfl⟩ := hrow
      have hrmem : r ∈ pointVal := by
        simp only [pySlice] at hr
        exact List.drop_subset _ _ (List.take_subset _ _ hr)
      rw [pySlice_length, hw r hrmem]

/-- Witness for C6 at concrete frames, monitors and ROI. -/
theorem readImage_formula_witness :
    _readImage [[(2:ℚ), 2], [2, 2]] 2 [[4, 6], [8, 10]] 2 (some ⟨1, 2, 1, 2⟩) =
      List.zipWith (List.zipWith (fun d k => some (d / 2 - k / 2)))
        (getAreaSet [[(4:ℚ), 6], [8, 10]] ⟨1, 2, 1, 2⟩)
        (getAreaSet [[(2:ℚ), 2], [2, 2]] ⟨1, 2, 1, 2⟩) ∧
    _readImage (List.replicate 2 (List.replicate 2 (0:ℚ))) 1
        [[4, 6], [8, 10]] 1 (some ⟨1, 2, 1, 2⟩) =
      (getAreaSet [[(4:ℚ), 6], [8, 10]] ⟨1, 2, 1, 2⟩).map
        (fun row => row.map some) :=
  ⟨(readImage_formula [[2, 2], [2, 2]] [[4, 6], [8, 10]] 2 2 ⟨1, 2, 1, 2⟩ 2).1
      (by norm_num) (by norm_num),
   (readImage_formula [[2, 2], [2, 2]] [[4, 6], [8, 10]] 2 2 ⟨1, 2, 1, 2⟩ 2).2
      (by decide)⟩

/-- Every entry of a `zipWith` comes from corresponding entries of the
two inputs. -/
lemma exists_of_mem_zipWith {f : α → β → γ} {l₁ : List α} {l₂ : List β}
    {c : γ} (h : c ∈ List.zipWith f l₁ l₂) :
    ∃ a ∈ l₁, ∃ b ∈ l₂, c = f a b := by
  induction l₁ generalizing l₂ with
  | nil => simp at h
  | cons x l₁ ih =>
    cases l₂ with
    | nil => simp at h
    | cons y l₂ =>
      simp only [List.zipWith_cons_cons, List.mem_cons] at h
      rcases h with h | h
      · exact ⟨x, List.mem_cons_self x l₁, y, List.mem_cons_self y l₂, h⟩
      · obtain ⟨a, ha, b, hb, rfl⟩ := ih h
        exact ⟨a, List.mem_cons_of_mem x ha, b, List.mem_cons_of_mem y hb, rfl⟩

/-- Subtraction with a non-finite right operand is non-finite. -/
lemma vsub_none_right (x : Val) : vsub x none = none := by
  cases x <;> rfl

/-- Subtraction with a non-finite left operand is non-finite. -/
lemma vsub_none_left (y : Val) : vsub none y = none := by
  cases y <;> rfl

/-- C4 counterexample: the claim says a zero dark-frame (or data)
monitor makes `_readImage` fail with a fatal configuration error,
aborting instead of producing a corrected frame.  The code performs
no such check: numpy division of the extracted ROI by the zero scalar
yields non-finite values with only a runtime warning, the subtraction
propagates them, and `_readImage` returns a corrected frame.  At the
concrete input below (dark frame `[[1]]` with monitor `0`, data frame
`[[2]]` with monitor `1`, full-frame ROI) the call returns the frame
`[[none]]` — a produced frame of non-finite cells, not an abort. -/
theorem readImage_zero_monitor_counterexample :
    _readImage [[(1:ℚ)]] 0 [[(2:ℚ)]] 1 (some ⟨1, 1, 1, 1⟩) = [[none]] := rfl

/-- C4 amended: when either monitor scalar is zero, `_readImage`
still returns a corrected frame, every cell of which is non-finite;
no error is raised and nothing aborts. -/
theorem readImage_zero_monitor_amended
    (darkVal pointVal : List (List ℚ)) (darkMon pointMon : ℚ)
    (conRoi : Option Roi) (h : darkMon = 0 ∨ pointMon = 0) :
    ∀ row ∈ _readImage darkVal darkMon pointVal pointMon conRoi,
      ∀ v ∈ row, v = none := by
  intro row hrow v hv
  simp only [_readImage, subFrames] at hrow
  obtain ⟨a, ha, b, hb, rfl⟩ := exists_of_mem_zipWith hrow
  obtain ⟨x, hx, y, hy, rfl⟩ := exists_of_mem_zipWith hv
  simp only [scaleFrame, List.mem_map] at ha hb
  obtain ⟨ra, _, rfl⟩ := ha
  obtain ⟨rb, _, rfl⟩ := hb
  simp only [List.mem_map] at hx hy
  obtain ⟨xa, _, rfl⟩ := hx
  obtain ⟨yb, _, rfl⟩ := hy
  rcases h with h | h
  · rw [show npDivScalar yb darkMon = none from if_pos h]
    exact vsub_none_right _
  · rw [show npDivScalar xa pointMon = none from if_pos h]
    exact vsub_none_left _

/-- Witness for the amended C4 at a concrete input with a zero dark
monitor: the single cell of the returned frame (dark frame `[[3]]`
with monitor `0`, data frame `[[5]]` with monitor `1`, full-frame
ROI) is non-finite. -/
theorem readImage_zero_monitor_amended_witness :
    vsub (npDivScalar 5 1) (npDivScalar 3 0) = none := by
  have h := readImage_zero_monitor_amended [[(3:ℚ)]] [[(5:ℚ)]] 0 1
    (some ⟨1, 1, 1, 1⟩) (Or.inl rfl)
  exact h _ (List.mem_singleton.mpr rfl) _ (List.mem_singleton.mpr rfl)

/-!
### Pixel geometry mapper (`_XY2delgam`)
-/

/-- Embeds `ImageProcessor._XY2delgam` (transformations.py lines
173-200): the `(x, y)` pixel coordinates are the raveled meshgrid of
the considered ROI, and (working in degrees, line 196-198)
`delta = del0 - arctan((y - y0) * pixDisY / detDis) / π * 180`,
`gamma = gam0 - arctan((x - x0) * pixDisX / detDis) / π * 180`.
The detector constants (`detDis`, pixel pitches, center) are the
processor fields, passed here as arguments. -/
noncomputable def _XY2delgam (roi : Roi) (del0 gam0 : ℝ)
    (detDis pixDisX pixDisY x0 y0 : ℝ) : List ℝ × List ℝ :=
  let conZ := getAreaXY roi
  let x := conZ.1.flatten
  let y := conZ.2.flatten
  (y.map (fun (yi : ℕ) => del0 - Real.arctan (((yi : ℝ) - y0) * pixDisY / detDis) / Real.pi * 180),
   x.map (fun (xi : ℕ) => gam0 - Real.arctan (((xi : ℝ) - x0) * pixDisX / detDis) / Real.pi * 180))

/-- C5: for every pixel `i` of the ROI (with raveled coordinates
`(xi, yi)`) and every reference pair `(del0, gam0)`, the mapper
computes exactly
`delta[i] = del0 - atan((yi - y0) * pixDisY / detDis) * 180/π` and
`gamma[i] = gam0 - atan((xi - x0) * pixDisX / detDis) * 180/π`
(subtraction from the reference angle; `delta` paired with the `y`
coordinate, `gamma` with the `x` coordinate); in particular a pixel
at the detector center `(x0, y0)` gets output angles exactly
`(del0, gam0)`. -/
theorem XY2delgam_formula (roi : Roi) (del0 gam0 : ℝ)
    (detDis pixDisX pixDisY x0 y0 : ℝ) (i : ℕ) (xi yi : ℕ)
    (hx : (getAreaXY roi).1.flatten[i]? = some xi)
    (hy : (getAreaXY roi).2.flatten[i]? = some yi) :
    ((_XY2delgam roi del0 gam0 detDis pixDisX pixDisY x0 y0).1[i]? =
      some (del0 - Real.arctan (((yi : ℝ) - y0) * pixDisY / detDis) * (180 / Real.pi))) ∧
    ((_XY2delgam roi del0 gam0 detDis pixDisX pixDisY x0 y0).2[i]? =
      some (gam0 - Real.arctan (((xi : ℝ) - x0) * pixDisX / detDis) * (180 / Real.pi))) ∧
    ((xi : ℝ) = x0 → (yi : ℝ) = y0 →
      ((_XY2delgam roi del0 gam0 detDis pixDisX pixDisY x0 y0).1[i]? = some del0 ∧
       (_XY2delgam roi del0 gam0 detDis pixDisX pixDisY x0 y0).2[i]? = some gam0)) := by
  have h1 : (_XY2delgam roi del0 gam0 detDis pixDisX pixDisY x0 y0).1[i]? =
      some (del0 - Real.arctan (((yi : ℝ) - y0) * pixDisY / detDis) / Real.pi * 180) := by
    simp only [_XY2delgam, List.getElem?_map, hy, Option.map_some']
  have h2 : (_XY2delgam roi del0 gam0 detDis pixDisX pixDisY x0 y0).2[i]? =
      some (gam0 - Real.arctan (((xi : ℝ) - x0) * pixDisX / detDis) / Real.pi * 180) := by
    simp only [_XY2delgam, List.getElem?_map, hx, Option.map_some']
  refine ⟨?_, ?_, ?_⟩
  · rw [h1]; ring_nf
  · rw [h2]; ring_nf
  · intro hcx hcy
    constructor
    · rw [h1, hcy]
      simp [Real.arctan_zero]
    · rw [h2, hcx]
      simp [Real.arctan_zero]

/-- Witness for C5: a 3×3 ROI starting at `(1, 1)` whose raveled
pixel 4 is the center `(2, 2)`; with `(x0, y0) = (2, 2)` the output
angles at that pixel are exactly the reference angles. -/
theorem XY2delgam_formula_witness :
    ((_XY2delgam ⟨1, 3, 1, 3⟩ 10 20 300 1 1 2 2).1[4]? = some 10 ∧
     (_XY2delgam ⟨1, 3, 1, 3⟩ 10 20 300 1 1 2 2).2[4]? = some 20) :=
  (XY2delgam_formula ⟨1, 3, 1, 3⟩ 10 20 300 1 1 2 2 4 2 2
    (by decide) (by decide)).2.2 (by norm_num) (by norm_num)

/-!
### Per-image processing (`processOneImage`): frame-mode dispatch
-/

/-- The four Q-vector getters the external diffractometer exposes
(`getQTheta`, `getQPhi`, `getQCart`, `getQHKL`, transformations.py
lines 236-242); the geometry calculator itself is an external
collaborator, so its four possible results are abstract inputs. -/
structure DiffResults (α : Type) where
  qTheta : α
  qPhi : α
  qCart : α
  qHKL : α

/-- The report printed for an unknown frame mode (transformations.py
line 244).  After printing it the source goes on to use the variable
`Qxyz`, which no branch assigned, so the access raises and the
operation aborts; the embedding models this as `Except.error`
carrying the report. -/
def badModeMsg : String :=
  "mode = %s is no proper mode for calculation of (Qx, Qy, Qz)!"

/-- Embeds the frame-mode dispatch of `ImageProcessor.processOneImage`
(transformations.py lines 235-245). -/
def selectQxyz (mode : ℤ) (r : DiffResults α) : Except String α :=
  if mode = 1 then Except.ok r.qTheta
  else if mode = 2 then Except.ok r.qPhi
  else if mode = 3 then Except.ok r.qCart
  else if mode = 4 then Except.ok r.qHKL
  else Except.error badModeMsg

/-- Builds `totIm` (transformations.py lines 248-250):
`totIm[:,:3] = Qxyz; totIm[:,3] = intent` (the two have equal lengths
by construction in the source). -/
def totIm (Qxyz : List (ℚ × ℚ × ℚ)) (intent : List Val) :
    List (ℚ × ℚ × ℚ × Val) :=
  (Qxyz.zip intent).map (fun p => (p.1.1, p.1.2.1, p.1.2.2, p.2))

/-- Embeds the tail of `ImageProcessor.processOneImage`
(transformations.py lines 211-252): with the raveled corrected
intensities `intent` and the diffractometer results `r` in hand,
select `Qxyz` according to `self.frameMode` and build `totIm`. -/
def processOneImage (mode : ℤ) (r : DiffResults (List (ℚ × ℚ × ℚ)))
    (intent : List Val) : Except String (List (ℚ × ℚ × ℚ × Val)) := do
  let Qxyz ← selectQxyz mode r
  return totIm Qxyz intent

/-- C3: for every `frameMode` outside `{1, 2, 3, 4}`,
`processOneImage` reports the configuration error and aborts without
defaulting to any frame (the result is the error, not a `totIm` of
some frame); for modes 1, 2, 3, 4 it selects the theta-, phi-,
cartesian- and HKL-frame Q vectors respectively. -/
theorem processOneImage_frameMode (mode : ℤ)
    (r : DiffResults (List (ℚ × ℚ × ℚ))) (intent : List Val) :
    ((mode ≠ 1 ∧ mode ≠ 2 ∧ mode ≠ 3 ∧ mode ≠ 4) →
      processOneImage mode r intent = Except.error badModeMsg) ∧
    processOneImage 1 r intent = Except.ok (totIm r.qTheta intent) ∧
    processOneImage 2 r intent = Except.ok (totIm r.qPhi intent) ∧
    processOneImage 3 r intent = Except.ok (totIm r.qCart intent) ∧
    processOneImage 4 r intent = Except.ok (totIm r.qHKL intent) := by
  refine ⟨?_, ?_, ?_, ?_, ?_⟩
  · rintro ⟨h1, h2, h3, h4⟩
    simp [processOneImage, selectQxyz, h1, h2, h3, h4]
  all_goals simp [processOneImage, selectQxyz]

/-- Witness for C3 at the concrete mode `7` (and modes 1-4). -/
theorem processOneImage_frameMode_witness :
    processOneImage 7 ⟨[(1, 0, 0)], [(2, 0, 0)], [(3, 0, 0)], [(4, 0, 0)]⟩
        [some 5] = Except.error badModeMsg ∧
    processOneImage 1 ⟨[(1, 0, 0)], [(2, 0, 0)], [(3, 0, 0)], [(4, 0, 0)]⟩
        [some 5] = Except.ok (totIm [(1, 0, 0)] [some 5]) ∧
    processOneImage 2 ⟨[(1, 0, 0)], [(2, 0, 0)], [(3, 0, 0)], [(4, 0, 0)]⟩
        [some 5] = Except.ok (totIm [(2, 0, 0)] [some 5]) ∧
    processOneImage 3 ⟨[(1, 0, 0)], [(2, 0, 0)], [(3, 0, 0)], [(4, 0, 0)]⟩
        [some 5] = Except.ok (totIm [(3, 0, 0)] [some 5]) ∧
    processOneImage 4 ⟨[(1, 0, 0)], [(2, 0, 0)], [(3, 0, 0)], [(4, 0, 0)]⟩
        [some 5] = Except.ok (totIm [(4, 0, 0)] [some 5]) :=
  ⟨(processOneImage_frameMode 7 ⟨[(1, 0, 0)], [(2, 0, 0)], [(3, 0, 0)], [(4, 0, 0)]⟩
      [some 5]).1 (by decide),
   (processOneImage_frameMode 7 ⟨[(1, 0, 0)], [(2, 0, 0)], [(3, 0, 0)], [(4, 0, 0)]⟩
      [some 5]).2⟩

/-!
### Set aggregation (`processOneSet`)
-/

/-- numpy row-slice assignment `buf[j : j + xs.length, :] = xs`.  In
the source every written slice has exactly the length of the assigned
block. -/
def writeSlice (buf : List ρ) (j : ℕ) (xs : List ρ) : List ρ :=
  buf.take j ++ xs ++ buf.drop (j + xs.length)

/-- Embeds `ImageProcessor.processOneSet` (transformations.py lines
254-276) over an abstract per-image transformer `f` (the source calls
`self.processOneImage(i)`; its internals are irrelevant to the
aggregation): `setSize = self.settingAngles.shape[0]`;
`totFirst = f 0`; `imSize = totFirst.shape[0]`;
`totSet = np.zeros((setSize * imSize, 4))`;
`totSet[0:imSize] = totFirst`; then
`for i in range(1, setSize): j += imSize; k += imSize; totSet[j:k] = f i`.
Rows `(Qx, Qy, Qz, I)` are abstract (`ρ`); `zero` is the zero row. -/
def processOneSet (f : ℕ → List ρ) (setSize : ℕ) (zero : ρ) : List ρ :=
  let totFirst := f 0
  let imSize := totFirst.length
  let npts := setSize * imSize
  let init := writeSlice (List.replicate npts zero) 0 totFirst
  ((List.range' 1 (setSize - 1)).foldl
    (fun st i => (writeSlice st.1 (st.2.1 + imSize) (f i),
                  st.2.1 + imSize, st.2.2 + imSize))
    (init, 0, imSize)).1

/-- Length of the concatenation of the first `n` per-image results. -/
lemma flatten_map_range_length (f : ℕ → List ρ) (L n : ℕ)
    (h : ∀ i < n, (f i).length = L) :
    (((List.range n).map f).flatten).length = n * L := by
  induction n with
  | zero => simp
  | succ n ih =>
    rw [List.range_succ, List.map_append, List.flatten_append,
      List.length_append, ih (fun i hi => h i (Nat.lt_succ_of_lt hi))]
    simp [h n (Nat.lt_succ_self n), Nat.succ_mul]

/-- Multiplying out one decrement: `(a - 1) * L = a * L - L`. -/
lemma pred_mul (a L : ℕ) : (a - 1) * L = a * L - L := by
  rw [Nat.sub_mul, one_mul]

/-- Writing a block at the boundary between a filled prefix and a
zero-filled remainder appends the block and shortens the remainder. -/
lemma writeSlice_boundary (P : List ρ) (xs : List ρ) (m j : ℕ) (zero : ρ)
    (hj : j = P.length) :
    writeSlice (P ++ List.replicate m zero) j xs =
      P ++ xs ++ List.replicate (m - xs.length) zero := by
  subst hj
  rw [writeSlice, List.take_left, List.drop_append, List.drop_replicate,
    List.append_assoc]

/-- Loop invariant of `processOneSet`: after the iterations for
images `1 .. m`, the buffer holds the concatenation of the first
`m + 1` per-image results followed by the untouched zero rows, and
the write cursor stands at `m * imSize`. -/
lemma processOneSet_invariant (f : ℕ → List ρ) (setSize : ℕ) (zero : ρ)
    (hlen : ∀ i < setSize, (f i).length = (f 0).length) :
    ∀ m, m ≤ setSize - 1 →
      (List.range' 1 m).foldl
        (fun st i => (writeSlice st.1 (st.2.1 + (f 0).length) (f i),
                      st.2.1 + (f 0).length, st.2.2 + (f 0).length))
        (writeSlice (List.replicate (setSize * (f 0).length) zero) 0 (f 0),
          0, (f 0).length) =
      (((List.range (m + 1)).map f).flatten ++
          List.replicate ((setSize - 1 - m) * (f 0).length) zero,
        m * (f 0).length, (m + 1) * (f 0).length) := by
  intro m
  induction m with
  | zero =>
    intro _
    have hinit : writeSlice (List.replicate (setSize * (f 0).length) zero) 0 (f 0) =
        ((List.range 1).map f).flatten ++
          List.replicate ((setSize - 1 - 0) * (f 0).length) zero := by
      rw [writeSlice, List.take_zero, List.drop_replicate, List.range_succ]
      have hcount : setSize * (f 0).length - (f 0).length =
          (setSize - 1) * (f 0).length := (pred_mul setSize _).symm
      simp [hcount]
    simp only [List.range'_zero, List.foldl_nil, hinit, Nat.zero_mul,
      Nat.one_mul, Nat.zero_add]
  | succ m ih =>
    intro hm
    have hm' : m ≤ setSize - 1 := Nat.le_of_succ_le hm
    have hmlt : m + 1 < setSize := by omega
    rw [List.range'_concat, List.foldl_append, ih hm', List.foldl_cons,
      List.foldl_nil]
    have hPlen : (((List.range (m + 1)).map f).flatten).length =
        (m + 1) * (f 0).length :=
      flatten_map_range_length f (f 0).length (m + 1)
        (fun i hi => hlen i (lt_trans hi hmlt))
    have hidx : 1 + 1 * m = m + 1 := by omega
    have hcursor : m * (f 0).length + (f 0).length = (m + 1) * (f 0).length :=
      (Nat.succ_mul m ((f 0).length)).symm
    have hcursor2 : (m + 1) * (f 0).length + (f 0).length =
        (m + 1 + 1) * (f 0).length :=
      (Nat.succ_mul (m + 1) ((f 0).length)).symm
    have harith : (setSize - 1 - m) * (f 0).length - (f (m + 1)).length =
        (setSize - 1 - (m + 1)) * (f 0).length := by
      have h2 : setSize - 1 - (m + 1) = setSize - 1 - m - 1 := by omega
      rw [hlen (m + 1) hmlt, h2, pred_mul]
    have hflat : ((List.range (m + 1)).map f).flatten ++ f (m + 1) =
        ((List.range (m + 1 + 1)).map f).flatten := by
      conv_rhs => rw [List.range_succ]
      rw [List.map_append, List.flatten_append]
      simp
    rw [hidx, writeSlice_boundary _ _ _ _ zero (by rw [hPlen, hcursor]),
      harith, hflat, hcursor, hcursor2]

/-- C9: for every set of `setSize ≥ 1` exposures whose per-image
results all have the pixel count of the first exposure,
`processOneSet` invokes the per-image transformer once per exposure
index in `[0, setSize)` and concatenates the results in exposure
order into one flat sequence of length `setSize * pixelsPerImage`
(the output buffer is pre-sized in the definition from the first
exposure's pixel count, `npts = setSize * (f 0).length`). -/
theorem processOneSet_spec (f : ℕ → List ρ) (setSize : ℕ) (zero : ρ)
    (h1 : 1 ≤ setSize)
    (hlen : ∀ i < setSize, (f i).length = (f 0).length) :
    processOneSet f setSize zero = ((List.range setSize).map f).flatten ∧
    (processOneSet f setSize zero).length = setSize * (f 0).length := by
  have hunf : processOneSet f setSize zero =
      ((List.range' 1 (setSize - 1)).foldl
        (fun st i => (writeSlice st.1 (st.2.1 + (f 0).length) (f i),
                      st.2.1 + (f 0).length, st.2.2 + (f 0).length))
        (writeSlice (List.replicate (setSize * (f 0).length) zero) 0 (f 0),
          0, (f 0).length)).1 := rfl
  have hinv := processOneSet_invariant f setSize zero hlen (setSize - 1) le_rfl
  have hs : setSize - 1 + 1 = setSize := by omega
  have heq : processOneSet f setSize zero = ((List.range setSize).map f).flatten := by
    rw [hunf, hinv]
    simp [hs, Nat.sub_self]
  refine ⟨heq, ?_⟩
  rw [heq]
  exact flatten_map_range_length f (f 0).length setSize hlen

/-- Witness for C9: three exposures of two rows each. -/
theorem processOneSet_spec_witness :
    processOneSet (fun i => [(i, 0), (i, 1)]) 3 ((0, 0) : ℕ × ℕ) =
      ((List.range 3).map (fun i => [(i, 0), (i, 1)])).flatten ∧
    (processOneSet (fun i => [(i, 0), (i, 1)]) 3 ((0, 0) : ℕ × ℕ)).length =
      3 * 2 :=
  processOneSet_spec (fun i => [(i, 0), (i, 1)]) 3 (0, 0)
    (by decide) (by decide)

/-!
### Cuboid gridding (`makeGridData` and the repository's `gridder.grid3d`)
-/

/-- Per-axis raw bin index of the gridder (spec section 4.6):
`bin = floor((Q - Qmin) / (Qmax - Qmin) * N)`. -/
def binIndex (q qmin qmax : ℚ) (n : ℕ) : ℤ :=
  ⌊(q - qmin) / (qmax - qmin) * n⌋

/-- Modelled from the spec: the compiled extension `gridder.grid3d`
called at transformations.py line 297 belongs to this repository but
is not among the provided sources; this definition follows spec
section 4.6.  For each point `(qx, qy, qz, intensity)` compute the
per-axis raw bin index; a point whose raw index falls outside
`[0, N)` on any axis is counted out-of-bounds and excluded from the
sums (excluded, not clamped); for in-range points accumulate the
per-cell intensity sum and the per-cell occupancy count.  Returns
`(gridData, gridOccu, gridOut)` with the two volumes stored flat. -/
def grid3d (data : List (ℚ × ℚ × ℚ × ℚ))
    (xmin xmax : ℚ) (nx : ℕ) (ymin ymax : ℚ) (ny : ℕ)
    (zmin zmax : ℚ) (nz : ℕ) : List ℚ × List ℕ × ℕ :=
  data.foldl
    (fun acc p =>
      let ix := binIndex p.1 xmin xmax nx
      let iy := binIndex p.2.1 ymin ymax ny
      let iz := binIndex p.2.2.1 zmin zmax nz
      if 0 ≤ ix ∧ ix < nx ∧ 0 ≤ iy ∧ iy < ny ∧ 0 ≤ iz ∧ iz < nz then
        let idx := (ix.toNat * ny + iy.toNat) * nz + iz.toNat
        (acc.1.set idx (acc.1.getD idx 0 + p.2.2.2),
         acc.2.1.set idx (acc.2.1.getD idx 0 + 1),
         acc.2.2)
      else
        (acc.1, acc.2.1, acc.2.2 + 1))
    (List.replicate (nx * ny * nz) 0, List.replicate (nx * ny * nz) 0, 0)

/-- The gridder options of `ImageProcessor` (`setGridOptions`,
transformations.py lines 134-141); unset options are `None`. -/
structure GridOptions where
  Qmin : Option (ℚ × ℚ × ℚ)
  Qmax : Option (ℚ × ℚ × ℚ)
  dQN : Option (ℕ × ℕ × ℕ)
deriving DecidableEq, Repr

/-- numpy `.min()` of a column (the source would raise on an empty
array; every claim uses nonempty data). -/
def colMin : List ℚ → ℚ
  | [] => 0
  | x :: rest => rest.foldl min x

/-- numpy `.max()` of a column (same convention as `colMin`). -/
def colMax : List ℚ → ℚ
  | [] => 0
  | x :: rest => rest.foldl max x

/-- `np.array([totData[:,0].min(), totData[:,1].min(), totData[:,2].min()])`
(transformations.py line 285). -/
def dataMins (totData : List (ℚ × ℚ × ℚ × ℚ)) : ℚ × ℚ × ℚ :=
  (colMin (totData.map (fun p => p.1)),
   colMin (totData.map (fun p => p.2.1)),
   colMin (totData.map (fun p => p.2.2.1)))

/-- `np.array([totData[:,0].max(), totData[:,1].max(), totData[:,2].max()])`
(transformations.py line 287). -/
def dataMaxs (totData : List (ℚ × ℚ × ℚ × ℚ)) : ℚ × ℚ × ℚ :=
  (colMax (totData.map (fun p => p.1)),
   colMax (totData.map (fun p => p.2.1)),
   colMax (totData.map (fun p => p.2.2.1)))

/-- The option-resolution prologue of `makeGridData`
(transformations.py lines 284-289): each unset option is stored back
into the object before use. -/
def resolveGridOptions (st : GridOptions)
    (totData : List (ℚ × ℚ × ℚ × ℚ)) : GridOptions :=
  let st := if st.Qmin = none then { st with Qmin := some (dataMins totData) } else st
  let st := if st.Qmax = none then { st with Qmax := some (dataMaxs totData) } else st
  if st.dQN = none then { st with dQN := some (100, 100, 100) } else st

/-- Embeds `ImageProcessor.makeGridData` (transformations.py lines
278-307): resolve unset grid options by mutating the stored state
(lines 284-289), alias the updated stored options (lines 292-294;
after resolution all three are `some`, so the `getD` defaults are
never used), call the gridder (line 297), and return
`(gridData, gridOccu, gridOut)` together with the updated state.
Lines 298-302 only print warnings: the out-of-bounds count `gridOut`
is compared and printed, and `emptNb = (gridOccu == 0).sum()` is
computed and printed when nonzero; neither print changes the data
flow, and only `gridOut` is part of the return value. -/
def makeGridData (st : GridOptions) (totData : List (ℚ × ℚ × ℚ × ℚ)) :
    (List ℚ × List ℕ × ℕ) × GridOptions :=
  let st := resolveGridOptions st totData
  let Qmin := st.Qmin.getD (0, 0, 0)
  let Qmax := st.Qmax.getD (0, 0, 0)
  let dQN := st.dQN.getD (0, 0, 0)
  (grid3d totData Qmin.1 Qmax.1 dQN.1 Qmin.2.1 Qmax.2.1 dQN.2.1
    Qmin.2.2 Qmax.2.2 dQN.2.2, st)

/-- The zero-occupancy diagnostic of transformations.py line 300:
`emptNb = (gridOccu == 0).sum()`. -/
def emptNb (gridOccu : List ℕ) : ℕ :=
  (gridOccu.filter (fun c => c == 0)).length

/-- With all three options set, `makeGridData` returns exactly the
`grid3d` triple for the stored options, and the state unchanged. -/
lemma makeGridData_of_some (st : GridOptions)
    (totData : List (ℚ × ℚ × ℚ × ℚ)) (qmin qmax : ℚ × ℚ × ℚ)
    (dqn : ℕ × ℕ × ℕ) (h1 : st.Qmin = some qmin) (h2 : st.Qmax = some qmax)
    (h3 : st.dQN = some dqn) :
    makeGridData st totData =
      (grid3d totData qmin.1 qmax.1 dqn.1 qmin.2.1 qmax.2.1 dqn.2.1
        qmin.2.2 qmax.2.2 dqn.2.2, st) := by
  simp [makeGridData, resolveGridOptions, h1, h2, h3]

/-- An unset `Qmin` is resolved to the dataset minima and stored. -/
lemma resolveGridOptions_Qmin (st : GridOptions)
    (totData : List (ℚ × ℚ × ℚ × ℚ)) (h : st.Qmin = none) :
    (resolveGridOptions st totData).Qmin = some (dataMins totData) := by
  simp only [resolveGridOptions]
  split_ifs <;> simp_all

/-- An unset `Qmax` is resolved to the dataset maxima and stored. -/
lemma resolveGridOptions_Qmax (st : GridOptions)
    (totData : List (ℚ × ℚ × ℚ × ℚ)) (h : st.Qmax = none) :
    (resolveGridOptions st totData).Qmax = some (dataMaxs totData) := by
  simp only [resolveGridOptions]
  split_ifs <;> simp_all

/-- An unset `dQN` is resolved to `[100, 100, 100]` and stored. -/
lemma resolveGridOptions_dQN (st : GridOptions)
    (totData : List (ℚ × ℚ × ℚ × ℚ)) (h : st.dQN = none) :
    (resolveGridOptions st totData).dQN = some (100, 100, 100) := by
  simp only [resolveGridOptions]
  split_ifs <;> simp_all

/-- Resolving a fully-unset option state stores all three defaults. -/
lemma resolveGridOptions_all_none (st : GridOptions)
    (totData : List (ℚ × ℚ × ℚ × ℚ)) (h1 : st.Qmin = none)
    (h2 : st.Qmax = none) (h3 : st.dQN = none) :
    resolveGridOptions st totData =
      ⟨some (dataMins totData), some (dataMaxs totData), some (100, 100, 100)⟩ := by
  simp only [resolveGridOptions]
  split_ifs <;> simp_all

/-- C10: when `makeGridData` is called with `Qmin`, `Qmax` and `dQN`
unset, it mutates the stored configuration: afterwards `self.Qmin`
and `self.Qmax` hold that dataset's per-axis minima and maxima and
`self.dQN` holds `[100, 100, 100]` (each of the three resolutions
also holds individually for whichever option is unset); consequently
a later `makeGridData` call on the same object grids the new data
with the first dataset's bounds and bin counts instead of re-deriving
them, and leaves the state unchanged. -/
theorem makeGridData_mutates_options (st : GridOptions)
    (totData totData2 : List (ℚ × ℚ × ℚ × ℚ)) :
    (st.Qmin = none →
      (makeGridData st totData).2.Qmin = some (dataMins totData)) ∧
    (st.Qmax = none →
      (makeGridData st totData).2.Qmax = some (dataMaxs totData)) ∧
    (st.dQN = none →
      (makeGridData st totData).2.dQN = some (100, 100, 100)) ∧
    (st.Qmin = none → st.Qmax = none → st.dQN = none →
      makeGridData (makeGridData st totData).2 totData2 =
        (grid3d totData2 (dataMins totData).1 (dataMaxs totData).1 100
            (dataMins totData).2.1 (dataMaxs totData).2.1 100
            (dataMins totData).2.2 (dataMaxs totData).2.2 100,
          (makeGridData st totData).2)) := by
  have hsnd : (makeGridData st totData).2 = resolveGridOptions st totData := rfl
  refine ⟨?_, ?_, ?_, ?_⟩
  · intro h
    rw [hsnd, resolveGridOptions_Qmin st totData h]
  · intro h
    rw [hsnd, resolveGridOptions_Qmax st totData h]
  · intro h
    rw [hsnd, resolveGridOptions_dQN st totData h]
  · intro h1 h2 h3
    rw [hsnd, resolveGridOptions_all_none st totData h1 h2 h3]
    exact makeGridData_of_some
      ⟨some (dataMins totData), some (dataMaxs totData), some (100, 100, 100)⟩
      totData2 (dataMins totData) (dataMaxs totData) (100, 100, 100) rfl rfl rfl

/-- Witness for C10: a first dataset establishes the stored bounds,
a second dataset is gridded with them. -/
theorem makeGridData_mutates_options_witness :
    ((makeGridData ⟨none, none, none⟩ [(1, 2, 3, 4), (0, 1, 2, 3)]).2.Qmin =
      some (dataMins [(1, 2, 3, 4), (0, 1, 2, 3)])) ∧
    ((makeGridData ⟨none, none, none⟩ [(1, 2, 3, 4), (0, 1, 2, 3)]).2.Qmax =
      some (dataMaxs [(1, 2, 3, 4), (0, 1, 2, 3)])) ∧
    ((makeGridData ⟨none, none, none⟩ [(1, 2, 3, 4), (0, 1, 2, 3)]).2.dQN =
      some (100, 100, 100)) ∧
    (makeGridData (makeGridData ⟨none, none, none⟩
        [(1, 2, 3, 4), (0, 1, 2, 3)]).2 [(10, 10, 10, 1)] =
      (grid3d [(10, 10, 10, 1)]
          (dataMins [(1, 2, 3, 4), (0, 1, 2, 3)]).1
          (dataMaxs [(1, 2, 3, 4), (0, 1, 2, 3)]).1 100
          (dataMins [(1, 2, 3, 4), (0, 1, 2, 3)]).2.1
          (dataMaxs [(1, 2, 3, 4), (0, 1, 2, 3)]).2.1 100
          (dataMins [(1, 2, 3, 4), (0, 1, 2, 3)]).2.2
          (dataMaxs [(1, 2, 3, 4), (0, 1, 2, 3)]).2.2 100,
        (makeGridData ⟨none, none, none⟩ [(1, 2, 3, 4), (0, 1, 2, 3)]).2)) :=
  ⟨(makeGridData_mutates_options ⟨none, none, none⟩
      [(1, 2, 3, 4), (0, 1, 2, 3)] [(10, 10, 10, 1)]).1 rfl,
   (makeGridData_mutates_options ⟨none, none, none⟩
      [(1, 2, 3, 4), (0, 1, 2, 3)] [(10, 10, 10, 1)]).2.1 rfl,
   (makeGridData_mutates_options ⟨none, none, none⟩
      [(1, 2, 3, 4), (0, 1, 2, 3)] [(10, 10, 10, 1)]).2.2.1 rfl,
   (makeGridData_mutates_options ⟨none, none, none⟩
      [(1, 2, 3, 4), (0, 1, 2, 3)] [(10, 10, 10, 1)]).2.2.2 rfl rfl rfl⟩

/-- C2 counterexample: the claim says `makeGridData` returns both
diagnostics — the out-of-bounds count and the zero-occupancy count —
to the caller.  The return value `(gridData, gridOccu, gridOut)`
carries exactly one scalar diagnostic, `gridOut`; the zero-occupancy
count `emptNb = (gridOccu == 0).sum()` is computed and printed as a
warning (transformations.py lines 300-302) but is not part of the
return value.  At the concrete input below (a 2×2×1 grid, one point
landing in cell 0) the returned scalar is `0` while the
zero-occupancy count of the returned occupancy volume is `3`, so the
returned scalar diagnostic is not the zero-occupancy count. -/
theorem makeGridData_emptNb_not_returned :
    (makeGridData ⟨some (0, 0, 0), some (1, 1, 1), some (2, 2, 1)⟩
        [(0, 0, 0, 7)]).1.2.2 ≠
      emptNb (makeGridData ⟨some (0, 0, 0), some (1, 1, 1), some (2, 2, 1)⟩
        [(0, 0, 0, 7)]).1.2.1 := by
  have h := makeGridData_of_some ⟨some (0, 0, 0), some (1, 1, 1), some (2, 2, 1)⟩
    [(0, 0, 0, 7)] (0, 0, 0) (1, 1, 1) (2, 2, 1) rfl rfl rfl
  rw [h]
  show (grid3d [((0:ℚ), 0, 0, 7)] 0 1 2 0 1 2 0 1 1).2.2 ≠
    emptNb (grid3d [((0:ℚ), 0, 0, 7)] 0 1 2 0 1 2 0 1 1).2.1
  have hg : grid3d [((0:ℚ), 0, 0, 7)] 0 1 2 0 1 2 0 1 1 =
      ([7, 0, 0, 0], [1, 0, 0, 0], 0) := by
    norm_num [grid3d, binIndex]
    exact ⟨rfl, rfl⟩
  rw [hg]
  norm_num [emptNb]

/-- C2 amended: `makeGridData` returns the gridded volume, the
occupancy volume and the out-of-bounds count as data to the caller
(nothing is thrown: the function is total and the state is returned
unchanged when the options are set); the zero-occupancy count is
computed and printed as a warning but is not among the returned
values — the caller can recompute it from the returned occupancy
volume as `emptNb`. -/
theorem makeGridData_returns (st : GridOptions)
    (totData : List (ℚ × ℚ × ℚ × ℚ)) (qmin qmax : ℚ × ℚ × ℚ)
    (dqn : ℕ × ℕ × ℕ) (h1 : st.Qmin = some qmin) (h2 : st.Qmax = some qmax)
    (h3 : st.dQN = some dqn) :
    makeGridData st totData =
      (grid3d totData qmin.1 qmax.1 dqn.1 qmin.2.1 qmax.2.1 dqn.2.1
        qmin.2.2 qmax.2.2 dqn.2.2, st) :=
  makeGridData_of_some st totData qmin qmax dqn h1 h2 h3

/-- Witness for the amended C2 at a concrete state and dataset. -/
theorem makeGridData_returns_witness :
    makeGridData ⟨some (0, 0, 0), some (1, 1, 1), some (2, 2, 1)⟩
        [(0, 0, 0, 7)] =
      (grid3d [((0:ℚ), 0, 0, 7)] 0 1 2 0 1 2 0 1 1,
        ⟨some (0, 0, 0), some (1, 1, 1), some (2, 2, 1)⟩) :=
  makeGridData_returns ⟨some (0, 0, 0), some (1, 1, 1), some (2, 2, 1)⟩
    [(0, 0, 0, 7)] (0, 0, 0) (1, 1, 1) (2, 2, 1) rfl rfl rfl
